import Mathlib

/-!
Shallow embedding of the Product-Description-Paraphrase core
(`src/utils/validation.ts`, `src/utils/openai-client.ts`,
`src/services/paraphrase.ts`, `src/cli.ts`).

Text is modelled as `List Char` (JS strings at the code-point level);
the whitespace class of JS `trim` / `split(/\s+/)` is modelled by
`Char.isWhitespace`, and JS `toLowerCase` by `Char.toLower`.  The float
comparison `similarity < 0.7` (with `similarity = common / max`) is
modelled exactly by the rational comparison `10 * common < 7 * max`.
-/

/-- JS strings at the code-point level. -/
abbrev Str := List Char

/-- JS `String.prototype.trim`: drop leading and trailing whitespace. -/
def trimList (s : Str) : Str :=
  ((s.dropWhile Char.isWhitespace).reverse.dropWhile Char.isWhitespace).reverse

/-- The `.replace(/[<>]/g, '')` step of `sanitizeInput`. -/
def stripAngles (s : Str) : Str :=
  s.filter (fun c => !(c = '<' || c = '>'))

/-- The `.replace(/\\n/g, '\n')` step of `sanitizeInput`: a left-to-right,
non-overlapping global replacement of the two-character sequence
backslash-`n` by a newline. -/
def unescapeNewlines : Str → Str
  | [] => []
  | [c] => [c]
  | c₁ :: c₂ :: rest =>
    if c₁ = '\\' ∧ c₂ = 'n' then '\n' :: unescapeNewlines rest
    else c₁ :: unescapeNewlines (c₂ :: rest)

/-- `sanitizeInput` from `src/utils/validation.ts`: strip `<`/`>`, turn the
escaped-newline sequences into real newlines, then trim. -/
def sanitizeInput (s : Str) : Str :=
  trimList (unescapeNewlines (stripAngles s))

/-- Worker for JS `split(/\s+/)`: `prevWs` records whether the previous
character belonged to a whitespace run (so that a run produces a single
separator), `cur` is the current chunk, reversed. -/
def splitWsAux : Str → Bool → Str → List Str
  | [], _, cur => [cur.reverse]
  | c :: rest, prevWs, cur =>
    if c.isWhitespace then
      if prevWs then splitWsAux rest true cur
      else cur.reverse :: splitWsAux rest true []
    else splitWsAux rest false (c :: cur)

/-- JS `s.split(/\s+/)`: chunks between maximal whitespace runs, with an
empty chunk at either end when the string starts or ends with whitespace,
and `[""]` for the empty string. -/
def splitWs (s : Str) : List Str :=
  splitWsAux s false []

/-- JS `toLowerCase`, character by character. -/
def lowerList (s : Str) : Str :=
  s.map Char.toLower

/-- JS `String.prototype.includes`: `pat` occurs as a contiguous run in `s`. -/
def containsSub (s pat : Str) : Bool :=
  s.tails.any (fun t => pat.isPrefixOf t)

/-- `TargetLength` enum (`src/types/index.ts`), values `short`/`medium`/`long`. -/
inductive TargetLength where
  | short
  | medium
  | long
deriving DecidableEq, Repr

/-- `ErrorType` enum (`src/types/index.ts`). -/
inductive ErrorType where
  | API_KEY_ERROR
  | NETWORK_ERROR
  | API_ERROR
  | VALIDATION_ERROR
  | RATE_LIMIT_ERROR
  | UNKNOWN_ERROR
deriving DecidableEq, Repr

/-- The values that can be thrown inside the try-block of `paraphrase` and
handed to `handleOpenAIError`: an `OpenAI.APIError` (optional HTTP status and
a message), any other `Error` (a message), or a non-`Error` value. -/
inductive Thrown where
  | apiError (status : Option Nat) (message : Str)
  | genericError (message : Str)
  | other
deriving DecidableEq, Repr

/-- The `details` payload of an `AppError`: either a zod issue (from the
validators) or a value thrown inside the gateway/orchestrator. -/
inductive ErrorCause where
  | zodIssue (message : Str)
  | thrown (e : Thrown)
deriving DecidableEq, Repr

/-- `AppError` (`src/types/index.ts`): a tagged error with a message and an
optional wrapped cause. -/
structure AppError where
  type : ErrorType
  message : Str
  details : Option ErrorCause
deriving DecidableEq, Repr

/-- A chat message in a completion choice: `content` is `string | null`. -/
structure ChatMessage where
  content : Option Str
deriving DecidableEq, Repr

/-- One candidate of a chat completion; `message` is accessed with `?.`. -/
structure Choice where
  message : Option ChatMessage
deriving DecidableEq, Repr

/-- Aggregate token usage of a completion. -/
structure Usage where
  total_tokens : Nat
deriving DecidableEq, Repr

/-- A chat completion as consumed by `paraphrase`: candidate list plus
optional usage. -/
structure Completion where
  choices : List Choice
  usage : Option Usage
deriving DecidableEq, Repr

/-- `ParaphraseRequest` (`src/types/index.ts`). -/
structure ParaphraseRequest where
  description : Str
  targetLength : Option TargetLength
deriving DecidableEq, Repr

/-- `ParaphraseResponse` (`src/types/index.ts`); the `Date` timestamp is
modelled as a number. -/
structure ParaphraseResponse where
  original : Str
  paraphrased : Str
  timestamp : Nat
  tokensUsed : Option Nat
deriving DecidableEq, Repr

/-- `MIN_DESCRIPTION_LENGTH` from `src/utils/validation.ts`. -/
def MIN_DESCRIPTION_LENGTH : Nat := 10

/-- `MAX_DESCRIPTION_LENGTH` from `src/utils/validation.ts`. -/
def MAX_DESCRIPTION_LENGTH : Nat := 5000

/-- zod issue message of the failed `.min` check. -/
def minLengthIssue : Str := "Description must be at least 10 characters".data

/-- zod issue message of the failed `.max` check. -/
def maxLengthIssue : Str := "Description must be at most 5000 characters".data

/-- `validateDescription` from `src/utils/validation.ts`.  The zod schema is
`z.string().min(10).max(5000).trim()`; zod runs its checks in order, so the
`.min`/`.max` bounds are applied to the raw (untrimmed) string and the
`.trim` transform runs afterwards.  On a zod failure the function wraps the
first issue message into a `VALIDATION_ERROR` `AppError`. -/
def validateDescription (description : Str) : Except AppError Str :=
  if description.length < MIN_DESCRIPTION_LENGTH then
    .error ⟨.VALIDATION_ERROR, "Invalid description: ".data ++ minLengthIssue,
      some (.zodIssue minLengthIssue)⟩
  else if MAX_DESCRIPTION_LENGTH < description.length then
    .error ⟨.VALIDATION_ERROR, "Invalid description: ".data ++ maxLengthIssue,
      some (.zodIssue maxLengthIssue)⟩
  else
    .ok (trimList description)

/-- zod issue message of a failed `z.nativeEnum(TargetLength)` parse. -/
def enumIssue : Str := "Invalid enum value".data

/-- `validateTargetLength` from `src/utils/validation.ts`: a falsy argument
(`undefined` or the empty string) yields `undefined`; otherwise the string is
parsed against the `TargetLength` enum values, any other value raising a
`VALIDATION_ERROR` `AppError`. -/
def validateTargetLength (length : Option Str) : Except AppError (Option TargetLength) :=
  match length with
  | none => .ok none
  | some l =>
    if l = [] then .ok none
    else if l = "short".data then .ok (some .short)
    else if l = "medium".data then .ok (some .medium)
    else if l = "long".data then .ok (some .long)
    else .error ⟨.VALIDATION_ERROR,
      "Invalid target length: \"".data ++ l ++ "\". Valid options are: ".data
        ++ "short, medium, long".data,
      some (.zodIssue enumIssue)⟩

/-- The three fixed opening sentences of the system prompt
(`generateSystemPrompt` in `src/services/paraphrase.ts`). -/
def promptIntro : Str :=
  "You are a helpful assistant that rewrites product descriptions. ".data
    ++ "Use simple, clear language that anyone can understand. ".data
    ++ "Keep the meaning and all important details, but use different words and sentence structures. ".data

/-- Length clause appended for `targetLength = 'short'`. -/
def shortClause : Str :=
  "Make the paraphrase concise and shorter than the original. ".data

/-- Length clause appended for `targetLength = 'medium'` (and by the switch
default, any other supplied value of the enum). -/
def mediumClause : Str :=
  "Keep the paraphrase approximately the same length as the original. ".data

/-- Length clause appended for `targetLength = 'long'`. -/
def longClause : Str :=
  "Expand the description with more details and context. ".data

/-- The fixed closing sentence of the system prompt. -/
def promptTail : Str :=
  "The paraphrase should be easy to read and understand while being completely different from the original text.".data

/-- `generateSystemPrompt` (`src/services/paraphrase.ts`): the fixed
instruction, then — only when a target length is supplied — one of the three
length clauses, then the fixed closing sentence. -/
def generateSystemPrompt (targetLength : Option TargetLength) : Str :=
  let withLength :=
    match targetLength with
    | none => promptIntro
    | some .short => promptIntro ++ shortClause
    | some .long => promptIntro ++ longClause
    | some .medium => promptIntro ++ mediumClause
  withLength ++ promptTail

/-- `generateUserPrompt` (`src/services/paraphrase.ts`). -/
def generateUserPrompt (description : Str) : Str :=
  "Please paraphrase the following product description:\n\n".data ++ description

/-- The system/user message pair built by `paraphrase` before the API call. -/
def buildPrompt (description : Str) (targetLength : Option TargetLength) : Str × Str :=
  (generateSystemPrompt targetLength, generateUserPrompt description)

/-- Message of the `API_KEY_ERROR` branch of `handleOpenAIError`. -/
def apiKeyErrorMsg : Str :=
  "Invalid OpenAI API key. Please check your configuration.".data

/-- Message of the `RATE_LIMIT_ERROR` branch of `handleOpenAIError`. -/
def rateLimitErrorMsg : Str :=
  "OpenAI API rate limit exceeded. Please try again later.".data

/-- Message of the `NETWORK_ERROR` branch of `handleOpenAIError`. -/
def networkErrorMsg : Str :=
  "Unable to connect to OpenAI API. Please check your internet connection.".data

/-- Message of the `UNKNOWN_ERROR` branch of `handleOpenAIError`. -/
def unknownErrorMsg : Str :=
  "An unexpected error occurred while calling OpenAI API".data

/-- Message of the `Error` thrown by `paraphrase` when the completion holds
no usable text. -/
def noContentMsg : Str :=
  "No paraphrase generated from the API".data

/-- `handleOpenAIError` (`src/utils/openai-client.ts`): classifies a thrown
value into an `AppError`, in order: `OpenAI.APIError` with status 401, with
status 429, any other `APIError`; a plain `Error` whose message contains
`ECONNREFUSED` or `ETIMEDOUT`; anything else.  The TS function always throws
(return type `never`); it is modelled as the total function returning the
thrown `AppError`. -/
def handleOpenAIError (error : Thrown) : AppError :=
  match error with
  | .apiError status msg =>
    if status = some 401 then
      ⟨.API_KEY_ERROR, apiKeyErrorMsg, some (.thrown (.apiError status msg))⟩
    else if status = some 429 then
      ⟨.RATE_LIMIT_ERROR, rateLimitErrorMsg, some (.thrown (.apiError status msg))⟩
    else
      ⟨.API_ERROR, "OpenAI API error: ".data ++ msg, some (.thrown (.apiError status msg))⟩
  | .genericError msg =>
    if containsSub msg "ECONNREFUSED".data || containsSub msg "ETIMEDOUT".data then
      ⟨.NETWORK_ERROR, networkErrorMsg, some (.thrown (.genericError msg))⟩
    else
      ⟨.UNKNOWN_ERROR, unknownErrorMsg, some (.thrown (.genericError msg))⟩
  | .other =>
    ⟨.UNKNOWN_ERROR, unknownErrorMsg, some (.thrown .other)⟩

/-- The `choices[0]?.message?.content?.trim()` extraction in `paraphrase`. -/
def extractText (completion : Completion) : Option Str :=
  ((completion.choices.head?.bind Choice.message).bind ChatMessage.content).map trimList

/-- `ParaphraseService.paraphrase` (`src/services/paraphrase.ts`).  The
result of the API call is passed in explicitly: `Except.error e` models the
call throwing `e`, `Except.ok c` models it resolving with completion `c`;
`now` is the clock value used for the response timestamp.  Any value thrown
inside the try-block — by the call itself, or the `Error` raised when the
trimmed first-candidate content is missing or empty — is routed through
`handleOpenAIError`. -/
def paraphrase (request : ParaphraseRequest) (apiResult : Except Thrown Completion)
    (now : Nat) : Except AppError ParaphraseResponse :=
  match apiResult with
  | .error e => .error (handleOpenAIError e)
  | .ok completion =>
    match extractText completion with
    | none => .error (handleOpenAIError (.genericError noContentMsg))
    | some t =>
      if t = [] then .error (handleOpenAIError (.genericError noContentMsg))
      else .ok ⟨request.description, t, now, completion.usage.map Usage.total_tokens⟩

/-- `isSignificantlyDifferent` (`src/services/paraphrase.ts`): false for
case-insensitively identical texts, otherwise true when the word-level
similarity — original words also present in the paraphrase, divided by the
larger word count — is below 0.7.  The float comparison `common / max < 0.7`
is modelled by `10 * common < 7 * max`. -/
def isSignificantlyDifferent (original paraphrased : Str) : Bool :=
  if lowerList original = lowerList paraphrased then false
  else
    let originalWords := splitWs (lowerList original)
    let paraphrasedWords := splitWs (lowerList paraphrased)
    let commonWords := originalWords.filter (fun word => paraphrasedWords.contains word)
    decide (10 * commonWords.length < 7 * max originalWords.length paraphrasedWords.length)

/-- The per-request pipeline of the interactive loop (`src/cli.ts` and
`src/index.ts`): `promptForDescription` sanitizes then validates the raw
input and rethrows any failure before the service — and hence the API
gateway — is ever reached; on success the service is called with the
validated description. -/
def runPipeline (raw : Str) (targetLength : Option TargetLength)
    (apiResult : Except Thrown Completion) (now : Nat) :
    Except AppError ParaphraseResponse :=
  match validateDescription (sanitizeInput raw) with
  | .error e => .error e
  | .ok description => paraphrase ⟨description, targetLength⟩ apiResult now

/-- Every character of `unescapeNewlines l` comes from `l` or is the newline
that replaces an escaped sequence. -/
theorem mem_unescape : ∀ (l : Str) (c : Char), c ∈ unescapeNewlines l → c ∈ l ∨ c = '\n'
  | [], c, h => by simp [unescapeNewlines] at h
  | [d], c, h => by
    simp [unescapeNewlines] at h
    exact Or.inl (by simp [h])
  | c₁ :: c₂ :: rest, c, h => by
    by_cases hc : c₁ = '\\' ∧ c₂ = 'n'
    · rw [unescapeNewlines, if_pos hc] at h
      rcases List.mem_cons.mp h with h | h
      · exact Or.inr h
      · rcases mem_unescape rest c h with h | h
        · exact Or.inl (List.mem_cons_of_mem _ (List.mem_cons_of_mem _ h))
        · exact Or.inr h
    · rw [unescapeNewlines, if_neg hc] at h
      rcases List.mem_cons.mp h with h | h
      · exact Or.inl (h ▸ List.mem_cons_self _ _)
      · rcases mem_unescape (c₂ :: rest) c h with h | h
        · exact Or.inl (List.mem_cons_of_mem _ h)
        · exact Or.inr h

/-- A list fixed by `dropWhile p` does not start with an element satisfying
`p`. -/
theorem dropWhile_fix_head {α : Type} (p : α → Bool) (l : List α) (a : α)
    (h : l.dropWhile p = l) (ha : l.head? = some a) : p a = false := by
  cases l with
  | nil => simp at ha
  | cons b t =>
    have hb : a = b := by simpa using ha.symm
    subst hb
    rw [List.dropWhile_cons] at h
    by_cases hp : p a
    · rw [if_pos hp] at h
      have := (List.dropWhile_sublist (l := t) p).length_le
      rw [h] at this
      simp at this
    · simpa using hp

/-- A list not starting with an element satisfying `p` is fixed by
`dropWhile p`. -/
theorem dropWhile_fix_of_head {α : Type} (p : α → Bool) (l : List α)
    (h : ∀ a, l.head? = some a → p a = false) : l.dropWhile p = l := by
  cases l with
  | nil => rfl
  | cons b t =>
    rw [List.dropWhile_cons, if_neg]
    simp [h b rfl]

/-- `rdropWhile p l` is an initial segment of `l`. -/
theorem rdropWhile_init {α : Type} (p : α → Bool) (l : List α) :
    ∃ t, List.rdropWhile p l ++ t = l := by
  obtain ⟨t, ht⟩ := List.dropWhile_suffix (l := l.reverse) p
  refine ⟨t.reverse, ?_⟩
  rw [List.rdropWhile, ← List.reverse_append, ht, List.reverse_reverse]

/-- Dropping trailing matches preserves the absence of leading matches. -/
theorem dropWhile_rdropWhile_fix {α : Type} (p : α → Bool) (l : List α)
    (h : l.dropWhile p = l) : (List.rdropWhile p l).dropWhile p = List.rdropWhile p l := by
  obtain ⟨t, ht⟩ := rdropWhile_init p l
  apply dropWhile_fix_of_head
  intro a ha
  have hl : l.head? = some a := by
    rw [← ht, List.head?_append, ha]
    rfl
  exact dropWhile_fix_head p l a h hl

/-- Membership in `rdropWhile p l` implies membership in `l`. -/
theorem mem_of_mem_rdropWhile {α : Type} {p : α → Bool} {l : List α} {c : α}
    (h : c ∈ List.rdropWhile p l) : c ∈ l := by
  rw [List.rdropWhile, List.mem_reverse] at h
  exact List.mem_reverse.mp (List.dropWhile_subset p h)

/-- Membership in the trimmed string implies membership in the original. -/
theorem mem_of_mem_trimList {l : Str} {c : Char} (h : c ∈ trimList l) : c ∈ l := by
  have heq : trimList l = List.rdropWhile Char.isWhitespace (l.dropWhile Char.isWhitespace) := rfl
  rw [heq] at h
  exact List.dropWhile_subset _ (mem_of_mem_rdropWhile h)

/-- The details field of every `AppError` built by `handleOpenAIError` wraps
the thrown value that caused it. -/
theorem handleOpenAIError_cause (e : Thrown) :
    (handleOpenAIError e).details = some (.thrown e) := by
  cases e with
  | apiError status msg =>
    rw [handleOpenAIError]
    by_cases h1 : status = some 401
    · rw [if_pos h1]
    · rw [if_neg h1]
      by_cases h2 : status = some 429
      · rw [if_pos h2]
      · rw [if_neg h2]
  | genericError msg =>
    rw [handleOpenAIError]
    by_cases h : (containsSub msg "ECONNREFUSED".data || containsSub msg "ETIMEDOUT".data) = true
    · rw [if_pos h]
    · rw [if_neg h]
  | other => rfl

/-- C9: for every input string, `sanitizeInput` returns a string with no `<`
character, no `>` character, and no leading or trailing whitespace. -/
theorem sanitizeInput_clean (s : Str) :
    '<' ∉ sanitizeInput s ∧ '>' ∉ sanitizeInput s ∧
    (sanitizeInput s).dropWhile Char.isWhitespace = sanitizeInput s ∧
    List.rdropWhile Char.isWhitespace (sanitizeInput s) = sanitizeInput s := by
  have hrepr : sanitizeInput s =
      List.rdropWhile Char.isWhitespace
        ((unescapeNewlines (stripAngles s)).dropWhile Char.isWhitespace) := rfl
  refine ⟨?_, ?_, ?_, ?_⟩
  · intro hmem
    rcases mem_unescape _ _ (mem_of_mem_trimList hmem) with h | h
    · exact absurd (List.mem_filter.mp h).2 (by decide)
    · exact absurd h (by decide)
  · intro hmem
    rcases mem_unescape _ _ (mem_of_mem_trimList hmem) with h | h
    · exact absurd (List.mem_filter.mp h).2 (by decide)
    · exact absurd h (by decide)
  · rw [hrepr]
    exact dropWhile_rdropWhile_fix _ _ (List.dropWhile_idempotent _ _)
  · rw [hrepr]
    exact List.rdropWhile_idempotent _ _

/-- C9 witness: `sanitizeInput_clean` applied to a concrete input. -/
theorem sanitizeInput_clean_applied :
    '<' ∉ sanitizeInput " <b>hi\\nthere</b> ".data ∧
    '>' ∉ sanitizeInput " <b>hi\\nthere</b> ".data ∧
    (sanitizeInput " <b>hi\\nthere</b> ".data).dropWhile Char.isWhitespace =
      sanitizeInput " <b>hi\\nthere</b> ".data ∧
    List.rdropWhile Char.isWhitespace (sanitizeInput " <b>hi\\nthere</b> ".data) =
      sanitizeInput " <b>hi\\nthere</b> ".data :=
  sanitizeInput_clean " <b>hi\\nthere</b> ".data

set_option maxRecDepth 8192 in
/-- C6 counterexample: the system prompt built without a length hint is not
the same-length prompt — with no hint, no length clause is appended at all,
so the claim that the builder defaults to the same-length instruction fails. -/
theorem generateSystemPrompt_default_not_medium :
    generateSystemPrompt none ≠ generateSystemPrompt (some TargetLength.medium) := by
  decide

/-- C6 (amended): with a target length hint, `generateSystemPrompt` appends
exactly the corresponding one of the three fixed clauses between the fixed
instruction and the fixed closing sentence; with no hint it appends no length
clause. -/
theorem generateSystemPrompt_clauses :
    generateSystemPrompt (some .short) = promptIntro ++ shortClause ++ promptTail ∧
    generateSystemPrompt (some .medium) = promptIntro ++ mediumClause ++ promptTail ∧
    generateSystemPrompt (some .long) = promptIntro ++ longClause ++ promptTail ∧
    generateSystemPrompt none = promptIntro ++ promptTail := by
  refine ⟨?_, ?_, ?_, ?_⟩ <;> simp [generateSystemPrompt, List.append_assoc]

set_option maxRecDepth 8192 in
/-- C7: the prompt builder is pure and deterministic — the built pair is a
function of the inputs, the system message depends only on the target length
hint, the user message only on the description, and the four system-message
variants (three hints plus the default) are pairwise distinct. -/
theorem buildPrompt_pure :
    (∀ d t, buildPrompt d t = (generateSystemPrompt t, generateUserPrompt d)) ∧
    (∀ d₁ d₂ t, (buildPrompt d₁ t).1 = (buildPrompt d₂ t).1) ∧
    (∀ d t₁ t₂, (buildPrompt d t₁).2 = (buildPrompt d t₂).2) ∧
    generateSystemPrompt none ≠ generateSystemPrompt (some .short) ∧
    generateSystemPrompt none ≠ generateSystemPrompt (some .medium) ∧
    generateSystemPrompt none ≠ generateSystemPrompt (some .long) ∧
    generateSystemPrompt (some .short) ≠ generateSystemPrompt (some .medium) ∧
    generateSystemPrompt (some .short) ≠ generateSystemPrompt (some .long) ∧
    generateSystemPrompt (some .medium) ≠ generateSystemPrompt (some .long) := by
  refine ⟨fun d t => rfl, fun d₁ d₂ t => rfl, fun d t₁ t₂ => rfl, ?_, ?_, ?_, ?_, ?_, ?_⟩
    <;> decide

/-- C7 witness: the system message is the same for two different
descriptions with the same hint. -/
theorem buildPrompt_pure_applied :
    (buildPrompt "A red shirt".data (some .short)).1 =
      (buildPrompt "Blue denim pants".data (some .short)).1 :=
  buildPrompt_pure.2.1 "A red shirt".data "Blue denim pants".data (some .short)

/-- C10: `validateTargetLength` returns `undefined` for `undefined` or the
empty string, maps each of the three enum values to the corresponding
`TargetLength`, and fails with a `VALIDATION_ERROR` `AppError` on every
other non-empty string. -/
theorem validateTargetLength_spec :
    validateTargetLength none = .ok none ∧
    validateTargetLength (some []) = .ok none ∧
    validateTargetLength (some "short".data) = .ok (some .short) ∧
    validateTargetLength (some "medium".data) = .ok (some .medium) ∧
    validateTargetLength (some "long".data) = .ok (some .long) ∧
    ∀ l : Str, l ≠ [] → l ≠ "short".data → l ≠ "medium".data → l ≠ "long".data →
      validateTargetLength (some l) =
        .error ⟨.VALIDATION_ERROR,
          "Invalid target length: \"".data ++ l ++ "\". Valid options are: ".data
            ++ "short, medium, long".data,
          some (.zodIssue enumIssue)⟩ := by
  refine ⟨rfl, rfl, rfl, rfl, rfl, ?_⟩
  intro l h0 h1 h2 h3
  simp [validateTargetLength, h0, h1, h2, h3]

/-- C10 witness: `validateTargetLength_spec` applied to the invalid value
`tiny`. -/
theorem validateTargetLength_spec_applied :
    validateTargetLength (some "tiny".data) =
      .error ⟨.VALIDATION_ERROR,
        "Invalid target length: \"".data ++ "tiny".data ++ "\". Valid options are: ".data
          ++ "short, medium, long".data,
        some (.zodIssue enumIssue)⟩ :=
  validateTargetLength_spec.2.2.2.2.2 "tiny".data (by decide) (by decide) (by decide)
    (by decide)

/-- C4: `handleOpenAIError`, evaluated in order, maps an `APIError` with
status 401 to `API_KEY_ERROR`, status 429 to `RATE_LIMIT_ERROR`, any other
`APIError` to `API_ERROR` with the upstream message appended, a plain error
carrying a connection-refused or timeout signature to `NETWORK_ERROR`, and
anything else to `UNKNOWN_ERROR`; the classification never depends on the
request payload, so a throwing gateway call yields the classified error for
every request. -/
theorem handleOpenAIError_classification :
    (∀ msg, handleOpenAIError (.apiError (some 401) msg) =
      ⟨.API_KEY_ERROR, apiKeyErrorMsg, some (.thrown (.apiError (some 401) msg))⟩) ∧
    (∀ msg, handleOpenAIError (.apiError (some 429) msg) =
      ⟨.RATE_LIMIT_ERROR, rateLimitErrorMsg, some (.thrown (.apiError (some 429) msg))⟩) ∧
    (∀ status msg, status ≠ some 401 → status ≠ some 429 →
      handleOpenAIError (.apiError status msg) =
        ⟨.API_ERROR, "OpenAI API error: ".data ++ msg,
          some (.thrown (.apiError status msg))⟩) ∧
    (∀ msg, (containsSub msg "ECONNREFUSED".data || containsSub msg "ETIMEDOUT".data) = true →
      handleOpenAIError (.genericError msg) =
        ⟨.NETWORK_ERROR, networkErrorMsg, some (.thrown (.genericError msg))⟩) ∧
    (∀ msg, (containsSub msg "ECONNREFUSED".data || containsSub msg "ETIMEDOUT".data) = false →
      handleOpenAIError (.genericError msg) =
        ⟨.UNKNOWN_ERROR, unknownErrorMsg, some (.thrown (.genericError msg))⟩) ∧
    handleOpenAIError .other = ⟨.UNKNOWN_ERROR, unknownErrorMsg, some (.thrown .other)⟩ ∧
    (∀ req now e, paraphrase req (.error e) now = .error (handleOpenAIError e)) := by
  refine ⟨fun msg => rfl, fun msg => rfl, ?_, ?_, ?_, rfl, fun req now e => rfl⟩
  · intro status msg h1 h2
    simp only [handleOpenAIError]
    rw [if_neg h1, if_neg h2]
  · intro msg h
    simp only [handleOpenAIError]
    rw [if_pos h]
  · intro msg h
    simp only [handleOpenAIError]
    rw [if_neg (by simp [h])]

/-- C4 witness: an `APIError` with status 500 classified as `API_ERROR` with
the upstream message included. -/
theorem handleOpenAIError_classification_applied :
    handleOpenAIError (.apiError (some 500) "Internal server error".data) =
      ⟨.API_ERROR, "OpenAI API error: ".data ++ "Internal server error".data,
        some (.thrown (.apiError (some 500) "Internal server error".data))⟩ :=
  handleOpenAIError_classification.2.2.1 (some 500) "Internal server error".data
    (by decide) (by decide)

/-- C8: the orchestrator never swallows a failure — a throwing gateway call
yields exactly the error classified by `handleOpenAIError` (which always
produces an error, never a normal return), and every failing `paraphrase`
call surfaces a single tagged `AppError` that wraps the original thrown
cause in its details. -/
theorem paraphrase_error_propagation (req : ParaphraseRequest)
    (api : Except Thrown Completion) (now : Nat) :
    (∀ e, api = .error e → paraphrase req api now = .error (handleOpenAIError e)) ∧
    (∀ err, paraphrase req api now = .error err →
      ∃ e, err = handleOpenAIError e ∧ err.details = some (.thrown e)) := by
  constructor
  · rintro e rfl
    rfl
  · intro err herr
    cases api with
    | error e =>
      have h : handleOpenAIError e = err := by simpa [paraphrase] using herr
      exact ⟨e, h.symm, h ▸ handleOpenAIError_cause e⟩
    | ok comp =>
      simp only [paraphrase] at herr
      split at herr
      · have h : handleOpenAIError (.genericError noContentMsg) = err := by simpa using herr
        exact ⟨_, h.symm, h ▸ handleOpenAIError_cause _⟩
      · split at herr
        · have h : handleOpenAIError (.genericError noContentMsg) = err := by
            simpa using herr
          exact ⟨_, h.symm, h ▸ handleOpenAIError_cause _⟩
        · simp at herr

/-- C8 witness: a gateway call throwing a non-Error value propagates as its
classification. -/
theorem paraphrase_error_propagation_applied :
    paraphrase ⟨"0123456789".data, none⟩ (.error .other) 5 =
      .error (handleOpenAIError .other) :=
  (paraphrase_error_propagation ⟨"0123456789".data, none⟩ (.error .other) 5).1 .other rfl

set_option maxRecDepth 8192 in
/-- C3 counterexample: with an empty candidate list the failure is the
`UNKNOWN_ERROR` produced by `handleOpenAIError` for the plain `Error` thrown
inside the try-block — not an `API_ERROR`, as the claim states. -/
theorem paraphrase_noContent_unknownError :
    paraphrase ⟨"A sample product description.".data, none⟩ (.ok ⟨[], some ⟨89⟩⟩) 0 =
      .error ⟨.UNKNOWN_ERROR, unknownErrorMsg, some (.thrown (.genericError noContentMsg))⟩ ∧
    ErrorType.UNKNOWN_ERROR ≠ ErrorType.API_ERROR := by
  exact ⟨rfl, by decide⟩

/-- C3 (amended): when the API call succeeds but the completion has no
usable text — empty candidate list, or a first candidate whose message or
content is missing, or whose content trims to the empty string — `paraphrase`
throws `Error(No paraphrase generated from the API)`, which the catch-block
routes through `handleOpenAIError` as an `UNKNOWN_ERROR` `AppError`; a
successful return never carries an empty paraphrased string. -/
theorem paraphrase_noContent (req : ParaphraseRequest) (comp : Completion) (now : Nat)
    (h : comp.choices = [] ∨
      ∃ ch rest, comp.choices = ch :: rest ∧
        (ch.message.bind ChatMessage.content = none ∨
         ∃ c, ch.message.bind ChatMessage.content = some c ∧ trimList c = [])) :
    paraphrase req (.ok comp) now =
      .error ⟨.UNKNOWN_ERROR, unknownErrorMsg, some (.thrown (.genericError noContentMsg))⟩ ∧
    (∀ (api : Except Thrown Completion) (r : ParaphraseResponse),
      paraphrase req api now = .ok r → r.paraphrased ≠ []) := by
  constructor
  · have herr : handleOpenAIError (.genericError noContentMsg) =
        ⟨.UNKNOWN_ERROR, unknownErrorMsg, some (.thrown (.genericError noContentMsg))⟩ := by
      decide
    have hx : extractText comp = none ∨ extractText comp = some [] := by
      rcases h with h | ⟨ch, rest, hc, h⟩
      · left
        simp [extractText, h]
      · rcases h with h | ⟨c, hc2, ht⟩
        · left
          simp [extractText, hc, h]
        · right
          simp [extractText, hc, hc2, ht]
    rcases hx with hx | hx
    · simp [paraphrase, hx, herr]
    · simp [paraphrase, hx, herr]
  · intro api r hr
    cases api with
    | error e => simp [paraphrase] at hr
    | ok c2 =>
      simp only [paraphrase] at hr
      split at hr
      · simp at hr
      · split at hr
        · simp at hr
        · rename_i t ht hne
          have h2 : r = ⟨req.description, t, now, c2.usage.map Usage.total_tokens⟩ := by
            simpa using hr.symm
          rw [h2]
          simpa using hne

/-- C3 witness: a first candidate whose content is whitespace-only fails as
`UNKNOWN_ERROR` rather than returning an empty string. -/
theorem paraphrase_noContent_applied :
    paraphrase ⟨"Ten chars!".data, none⟩ (.ok ⟨[⟨some ⟨some "   ".data⟩⟩], some ⟨7⟩⟩) 3 =
      .error ⟨.UNKNOWN_ERROR, unknownErrorMsg, some (.thrown (.genericError noContentMsg))⟩ :=
  (paraphrase_noContent ⟨"Ten chars!".data, none⟩ ⟨[⟨some ⟨some "   ".data⟩⟩], some ⟨7⟩⟩ 3
    (Or.inr ⟨⟨some ⟨some "   ".data⟩⟩, [], rfl, Or.inr ⟨"   ".data, rfl, rfl⟩⟩)).1

/-- C5: on a successful completion whose first candidate carries content `c`
with non-empty trim and whose reported total token usage is `u`, `paraphrase`
returns the response with `original` the request description, `paraphrased`
the trimmed `c`, the current timestamp, and `tokensUsed = u`. -/
theorem paraphrase_success (req : ParaphraseRequest) (comp : Completion) (now : Nat)
    (c : Str) (u : Nat)
    (h1 : (comp.choices.head?.bind Choice.message).bind ChatMessage.content = some c)
    (h2 : trimList c ≠ [])
    (h3 : comp.usage = some ⟨u⟩) :
    paraphrase req (.ok comp) now = .ok ⟨req.description, trimList c, now, some u⟩ := by
  have hx : extractText comp = some (trimList c) := by
    simp [extractText, h1]
  simp [paraphrase, hx, h2, h3]

/-- C5 witness: the stubbed wallet example — the stub echoes a shorter
rewrite with usage 89 and `paraphrase` packages it unchanged. -/
theorem paraphrase_success_wallet :
    paraphrase
      ⟨"This premium leather wallet features multiple card slots, a bill compartment, and RFID protection for secure storage.".data, none⟩
      (.ok ⟨[⟨some ⟨some "A quality leather wallet with card slots, a bill pocket, and RFID protection.".data⟩⟩], some ⟨89⟩⟩)
      1700000000 =
    .ok ⟨"This premium leather wallet features multiple card slots, a bill compartment, and RFID protection for secure storage.".data,
      trimList "A quality leather wallet with card slots, a bill pocket, and RFID protection.".data,
      1700000000, some 89⟩ :=
  paraphrase_success _ _ 1700000000
    "A quality leather wallet with card slots, a bill pocket, and RFID protection.".data
    89 rfl (by decide) rfl

/-- C2 counterexample: with original `a a a a b` and paraphrase `a b x y z`
the texts are not case-insensitively identical and the overlap computed as
the claim states it — words of the paraphrase present in the original over
the larger word count, here 2/5 — is below 0.7, so the claim predicts true;
the code counts original words present in the paraphrase (5/5) and returns
false. -/
theorem isSignificantlyDifferent_claim_counterexample :
    lowerList "a a a a b".data ≠ lowerList "a b x y z".data ∧
    10 * ((splitWs (lowerList "a b x y z".data)).filter
        (fun w => (splitWs (lowerList "a a a a b".data)).contains w)).length <
      7 * max (splitWs (lowerList "a a a a b".data)).length
        (splitWs (lowerList "a b x y z".data)).length ∧
    isSignificantlyDifferent "a a a a b".data "a b x y z".data = false := by
  refine ⟨by decide, by decide, by decide⟩

/-- C2 (amended): `isSignificantlyDifferent` returns true exactly when the
texts are not case-insensitively identical and the overlap — the count of
original words also present in the paraphrase, divided by the larger of the
two word counts — is below 0.7; the two examples of the spec hold. -/
theorem isSignificantlyDifferent_spec :
    (∀ o p : Str, isSignificantlyDifferent o p = true ↔
      (lowerList o ≠ lowerList p ∧
        10 * ((splitWs (lowerList o)).filter
            (fun w => (splitWs (lowerList p)).contains w)).length <
          7 * max (splitWs (lowerList o)).length (splitWs (lowerList p)).length)) ∧
    isSignificantlyDifferent "A red shirt".data "A red shirt".data = false ∧
    isSignificantlyDifferent "A red large cotton shirt".data "Blue denim pants".data = true := by
  refine ⟨?_, by decide, by decide⟩
  intro o p
  rw [isSignificantlyDifferent]
  by_cases h : lowerList o = lowerList p
  · simp [h]
  · simp [h]

/-- C2 witness: the characterization applied to two fully different
one-word texts. -/
theorem isSignificantlyDifferent_spec_applied :
    isSignificantlyDifferent "word".data "other".data = true :=
  (isSignificantlyDifferent_spec.1 "word".data "other".data).mpr (by decide)

/-- C1 counterexample: the input `ab` followed by eight spaces has raw
length 10 but trimmed length 2; the claim predicts a `ValidationError`, yet
`validateDescription` accepts it — the zod `.min`/`.max` checks run before
the `.trim` transform, so the bounds apply to the untrimmed string. -/
theorem validateDescription_trimmed_claim_false :
    (trimList "ab        ".data).length < MIN_DESCRIPTION_LENGTH ∧
    validateDescription "ab        ".data = .ok "ab".data :=
  ⟨by decide, rfl⟩

/-- C1 (amended): `validateDescription` fails with a `VALIDATION_ERROR`
`AppError` exactly when the raw (untrimmed) length is below 10 or above
5000, returns the trimmed string otherwise, and on a validation failure the
pipeline returns that error without the API gateway ever being consulted
(the result is the validation error, independent of the gateway outcome). -/
theorem validateDescription_bounds (s : Str) (tl : Option TargetLength)
    (a₁ a₂ : Except Thrown Completion) (now : Nat) :
    (s.length < MIN_DESCRIPTION_LENGTH →
      validateDescription s = .error ⟨.VALIDATION_ERROR,
        "Invalid description: ".data ++ minLengthIssue, some (.zodIssue minLengthIssue)⟩) ∧
    (MAX_DESCRIPTION_LENGTH < s.length →
      validateDescription s = .error ⟨.VALIDATION_ERROR,
        "Invalid description: ".data ++ maxLengthIssue, some (.zodIssue maxLengthIssue)⟩) ∧
    (MIN_DESCRIPTION_LENGTH ≤ s.length → s.length ≤ MAX_DESCRIPTION_LENGTH →
      validateDescription s = .ok (trimList s)) ∧
    (∀ e, validateDescription (sanitizeInput s) = .error e →
      runPipeline s tl a₁ now = .error e ∧
      runPipeline s tl a₁ now = runPipeline s tl a₂ now) := by
  refine ⟨?_, ?_, ?_, ?_⟩
  · intro h
    rw [validateDescription, if_pos h]
  · intro h
    have h0 : ¬(s.length < MIN_DESCRIPTION_LENGTH) := by
      unfold MIN_DESCRIPTION_LENGTH
      unfold MAX_DESCRIPTION_LENGTH at h
      omega
    rw [validateDescription, if_neg h0, if_pos h]
  · intro h1 h2
    rw [validateDescription, if_neg (by omega), if_neg (by omega)]
  · intro e he
    constructor
    · simp [runPipeline, he]
    · simp [runPipeline, he]

/-- C1 witness: a 9-character input fails validation and the pipeline
surfaces the validation error with the gateway stub never mattering. -/
theorem validateDescription_bounds_applied :
    runPipeline "too short".data none (.ok ⟨[], none⟩) 0 =
      .error ⟨.VALIDATION_ERROR, "Invalid description: ".data ++ minLengthIssue,
        some (.zodIssue minLengthIssue)⟩ :=
  ((validateDescription_bounds "too short".data none (.ok ⟨[], none⟩) (.error .other) 0).2.2.2
    _ rfl).1
